import Mathlib

/-!
Verification of the connection-lifecycle, send-path, backoff and account
operations of the `nautilus_trader` network and model crates, shallowly
embedded from the Rust sources
(`nautilus_core/network/src/python/socket.rs`,
`nautilus_core/model/src/accounts/any.rs`).
-/

namespace NautilusNet

/-- The four connection modes of the socket client, mirroring the constants
`CONNECTION_ACTIVE`, `CONNECTION_RECONNECT`, `CONNECTION_DISCONNECT`,
`CONNECTION_CLOSED` used by `socket.rs`. -/
inductive ConnectionMode
  | Active
  | Reconnecting
  | Disconnecting
  | Closed
deriving DecidableEq, Repr

/-- Observable actions performed by a lifecycle operation (`py_reconnect`,
`py_close`): a logged warning, an atomic store of a new mode, or a polling
wait that suspends until the shared mode equals the given target. -/
inductive LifecycleAction
  | warn (msg : String)
  | store (m : ConnectionMode)
  | awaitMode (m : ConnectionMode)
deriving DecidableEq, Repr

/-- The action trace of `SocketClient::py_reconnect`, as a function of the
mode loaded from the shared atomic at entry.  Embeds the `match` in
`socket.rs` lines 133-149: the `CONNECTION_RECONNECT`, `CONNECTION_DISCONNECT`
and `CONNECTION_CLOSED` arms only log a warning; the default arm stores
`CONNECTION_RECONNECT` and then sleeps in a loop until the mode is
`CONNECTION_ACTIVE`. -/
def py_reconnect_actions (mode : ConnectionMode) : List LifecycleAction :=
  match mode with
  | .Reconnecting => [.warn "Cannot reconnect: socket already reconnecting"]
  | .Disconnecting => [.warn "Cannot reconnect: socket disconnecting"]
  | .Closed => [.warn "Cannot reconnect: socket closed"]
  | .Active => [.store .Reconnecting, .awaitMode .Active]

/-- The action trace of `SocketClient::py_close`, embedding the `match` in
`socket.rs` lines 171-184: the `CONNECTION_CLOSED` and `CONNECTION_DISCONNECT`
arms only log a warning; the default arm stores `CONNECTION_DISCONNECT` and
then sleeps in a loop until the mode is `CONNECTION_CLOSED`. -/
def py_close_actions (mode : ConnectionMode) : List LifecycleAction :=
  match mode with
  | .Closed => [.warn "Socket already closed"]
  | .Disconnecting => [.warn "Socket already disconnecting"]
  | .Active => [.store .Disconnecting, .awaitMode .Closed]
  | .Reconnecting => [.store .Disconnecting, .awaitMode .Closed]

/-- The shared mode observed at the moment the operation returns, obtained by
replaying the action trace from the entry mode: a store writes the mode, and a
polling wait `while mode != target: sleep` can only be exited with the mode
equal to its target. -/
def modeAtReturn (start : ConnectionMode) (acts : List LifecycleAction) :
    ConnectionMode :=
  acts.foldl
    (fun m a =>
      match a with
      | .store m2 => m2
      | .awaitMode m2 => m2
      | .warn _ => m)
    start

/-- Outcome of a lifecycle operation: its observable action trace, the Rust
return value (both `py_reconnect` and `py_close` end in `Ok(())`), and the
shared mode observed at return. -/
structure LifecycleOutcome where
  actions : List LifecycleAction
  result : Except String Unit
  retMode : ConnectionMode
deriving Repr

/-- Runs a lifecycle operation: both Rust bodies always return `Ok(())`. -/
def runLifecycle (start : ConnectionMode) (acts : List LifecycleAction) :
    LifecycleOutcome :=
  ⟨acts, .ok (), modeAtReturn start acts⟩

/-- `SocketClient::py_reconnect` as a function of the loaded mode. -/
def py_reconnect (mode : ConnectionMode) : LifecycleOutcome :=
  runLifecycle mode (py_reconnect_actions mode)

/-- `SocketClient::py_close` as a function of the loaded mode. -/
def py_close (mode : ConnectionMode) : LifecycleOutcome :=
  runLifecycle mode (py_close_actions mode)

/-- Whether an action is a store (a mutation of the shared mode). -/
def LifecycleAction.isStore : LifecycleAction → Bool
  | .store _ => true
  | _ => false

/-- Observable actions on the outbound send path of
`SocketClient::py_send`: admission by the rate limiter, acquisition of the
exclusive writer lock, and a write of a byte buffer to the transport. -/
inductive SendAction
  | rateLimit
  | acquireWriter
  | write (bytes : List Nat)
deriving DecidableEq, Repr

/-- The action trace of `SocketClient::py_send` (`socket.rs` lines 196-209)
for a given configured suffix and payload: the body extends `data` with
`slf.suffix`, locks the writer, and calls `write_all` on the extended
buffer. -/
def py_send (suffix data : List Nat) : List SendAction :=
  [.acquireWriter, .write (data ++ suffix)]

/-- The byte buffers written to the transport by a send-path trace. -/
def writesOf (acts : List SendAction) : List (List Nat) :=
  acts.filterMap
    (fun a =>
      match a with
      | .write bs => some bs
      | _ => none)

end NautilusNet

namespace NautilusBackoff

/-- Modelled from the spec: the exponential-backoff module (`pub mod backoff`
of the network crate) is not among the provided sources; the spec gives its
construction-time parameters (§4.2, §6): initial delay, maximum delay,
multiplier per consecutive failure, and the upper bound of the randomized
jitter addition.  Durations are modelled as exact rationals. -/
structure BackoffConfig where
  delay_initial : ℚ
  delay_max : ℚ
  factor : ℚ
  jitter_bound : ℚ

/-- Modelled from the spec: the capped base delay of §4.2, before jitter:
`min(max_delay, initial_delay * factor^consecutive_failures)`. -/
def base_delay (c : BackoffConfig) (n : ℕ) : ℚ :=
  min c.delay_max (c.delay_initial * c.factor ^ n)

/-- Modelled from the spec: `next_delay` of §4.2 — the capped base delay
widened by a uniformly random jitter in `[0, jitter_bound]`, added (never
subtracted).  The jitter draw is passed explicitly. -/
def next_delay (c : BackoffConfig) (n : ℕ) (jitter : ℚ) : ℚ :=
  base_delay c n + jitter

end NautilusBackoff

namespace NautilusModel

/-- Account type enumeration of the model crate, as matched on by
`AccountAny::from` (`any.rs` lines 112-120). -/
inductive AccountType
  | Margin
  | Cash
  | Betting
deriving DecidableEq, Repr

/-- Account identifier (`AccountId` wraps an interned string). -/
structure AccountId where
  value : String
deriving DecidableEq, Repr

/-- The fields of an `AccountState` event that the provided sources touch:
its account identifier and account type.  The remaining fields (balances,
margins, timestamps) are carried opaquely by `extra`. -/
structure AccountState where
  account_id : AccountId
  account_type : AccountType
  extra : Nat := 0
deriving DecidableEq, Repr

/-- Modelled from the spec: `MarginAccount` (module `accounts::margin`, not
among the provided sources; the spec scopes the trading domain model out as an
external collaborator).  Modelled freely as the constructor calls the provided
code performs on it: `MarginAccount::new(event, ..)` records the initial
event, and `apply` appends an event; `id` is the field read by
`AccountAny::id`. -/
structure MarginAccount where
  id : AccountId
  init_event : AccountState
  applied_events : List AccountState
deriving DecidableEq, Repr

/-- Modelled from the spec: `CashAccount`, freely, as for `MarginAccount`. -/
structure CashAccount where
  id : AccountId
  init_event : AccountState
  applied_events : List AccountState
deriving DecidableEq, Repr

/-- Modelled from the spec: `MarginAccount::new(event, calculate_account_state)`
initializes the account from the event (the id taken from the event). -/
def MarginAccount.new (event : AccountState) (_calculate : Bool) :
    MarginAccount :=
  ⟨event.account_id, event, []⟩

/-- Modelled from the spec: `MarginAccount::apply(event)` records the event
against the account. -/
def MarginAccount.apply (a : MarginAccount) (event : AccountState) :
    MarginAccount :=
  { a with applied_events := a.applied_events ++ [event] }

/-- Modelled from the spec: `CashAccount::new`, as for `MarginAccount.new`. -/
def CashAccount.new (event : AccountState) (_calculate : Bool) : CashAccount :=
  ⟨event.account_id, event, []⟩

/-- Modelled from the spec: `CashAccount::apply`, as for
`MarginAccount.apply`. -/
def CashAccount.apply (a : CashAccount) (event : AccountState) : CashAccount :=
  { a with applied_events := a.applied_events ++ [event] }

/-- `AccountAny` — the enum over the two implemented account kinds
(`any.rs` lines 29-33). -/
inductive AccountAny
  | Margin (m : MarginAccount)
  | Cash (c : CashAccount)
deriving DecidableEq, Repr

/-- `AccountAny::id` (`any.rs` lines 37-42): reads the `id` field of the
wrapped account. -/
def AccountAny.id : AccountAny → AccountId
  | .Margin m => m.id
  | .Cash c => c.id

/-- `AccountAny::apply` (`any.rs` lines 58-63): dispatches to the wrapped
account's `apply`. -/
def AccountAny.applyEvent : AccountAny → AccountState → AccountAny
  | .Margin m, e => .Margin (m.apply e)
  | .Cash c, e => .Cash (c.apply e)

/-- `impl From<AccountState> for AccountAny` (`any.rs` lines 112-120):
matches on `event.account_type`; the `Betting` arm is `todo!()`, a panic,
modelled as `none`. -/
def AccountAny.fromState (event : AccountState) : Option AccountAny :=
  match event.account_type with
  | .Margin => some (.Margin (MarginAccount.new event false))
  | .Cash => some (.Cash (CashAccount.new event false))
  | .Betting => none

/-- Possible outcomes of `AccountAny::from_events`: a returned account, a
returned `anyhow` error, or a panic (`todo!()` reached). -/
inductive FromEventsOutcome
  | ok (a : AccountAny)
  | err (msg : String)
  | unimplemented (msg : String)
deriving DecidableEq, Repr

/-- `AccountAny::from_events` (`any.rs` lines 86-97): bails when the list is
empty; otherwise builds the account from the first event and applies each
subsequent event in order. -/
def AccountAny.from_events (events : List AccountState) : FromEventsOutcome :=
  match events with
  | [] => .err "No order events provided to create `AccountAny`"
  | init :: rest =>
    match AccountAny.fromState init with
    | none => .unimplemented "Betting account not implemented"
    | some account => .ok (rest.foldl AccountAny.applyEvent account)

/-- `impl PartialEq for AccountAny` (`any.rs` lines 129-133):
`self.id() == other.id()`. -/
def AccountAny.beq (a b : AccountAny) : Bool :=
  a.id == b.id

end NautilusModel

open NautilusNet NautilusBackoff NautilusModel

/-- Claim C1 counterexample: for payload `[104, 105]` and configured suffix
`[13, 10]`, the `py_send` trace contains a transport write but no
rate-limiter admission, so a write reaches the transport without being
admitted by the Rate Limiter. -/
theorem C1_counterexample :
    SendAction.rateLimit ∉ py_send [13, 10] [104, 105] ∧
    SendAction.write [104, 105, 13, 10] ∈ py_send [13, 10] [104, 105] := by
  decide

/-- Claim C1 (amended): for every byte buffer passed to send, the call
appends the configured suffix, acquires the Writer, and writes the bytes;
the socket send path performs no rate-limiter admission at all. -/
theorem C1_theorem (suffix data : List Nat) :
    py_send suffix data =
      [.acquireWriter, .write (data ++ suffix)] ∧
    SendAction.rateLimit ∉ py_send suffix data :=
  ⟨rfl, by simp [py_send]⟩

/-- Claim C2: for every byte buffer `data` passed to send, the byte
sequence handed to the transport writer is exactly one write of
`data ++ suffix`, i.e. the configured suffix appended exactly once. -/
theorem C2_theorem (suffix data : List Nat) :
    writesOf (py_send suffix data) = [data ++ suffix] :=
  rfl

/-- Claim C3: a `reconnect()` call made while the mode is `Reconnecting`,
`Disconnecting` or `Closed` returns `Ok(())`, leaves the mode unchanged,
and performs no store (a logged no-op, never an error). -/
theorem C3_theorem (mode : ConnectionMode)
    (h : mode = .Reconnecting ∨ mode = .Disconnecting ∨ mode = .Closed) :
    (py_reconnect mode).result = .ok () ∧
    (py_reconnect mode).retMode = mode ∧
    (py_reconnect mode).actions.all (fun a => !a.isStore) = true := by
  rcases h with h | h | h <;> subst h <;> exact ⟨rfl, rfl, rfl⟩

/-- Claim C3 witness: instantiated at mode `Reconnecting`. -/
theorem C3_witness :
    (py_reconnect .Reconnecting).result = .ok () ∧
    (py_reconnect .Reconnecting).retMode = .Reconnecting ∧
    (py_reconnect .Reconnecting).actions.all (fun a => !a.isStore) = true :=
  C3_theorem .Reconnecting (Or.inl rfl)

/-- Claim C4 counterexample: a `close()` call made while the mode is
`Disconnecting` returns immediately with the mode still `Disconnecting`,
not `Closed`. -/
theorem C4_counterexample :
    (py_close .Disconnecting).retMode = .Disconnecting ∧
    ConnectionMode.Disconnecting ≠ ConnectionMode.Closed :=
  ⟨rfl, by decide⟩

/-- Claim C4 (amended): for every `close()` call made while the mode is not
`Disconnecting`, the call returns `Ok(())` and when it returns the mode
equals `Closed`; a call while `Disconnecting` is a warning-only no-op that
returns without waiting for `Closed`. -/
theorem C4_theorem (mode : ConnectionMode) (h : mode ≠ .Disconnecting) :
    (py_close mode).result = .ok () ∧ (py_close mode).retMode = .Closed := by
  cases mode
  · exact ⟨rfl, rfl⟩
  · exact ⟨rfl, rfl⟩
  · exact absurd rfl h
  · exact ⟨rfl, rfl⟩

/-- Claim C4 witness: instantiated at mode `Active`. -/
theorem C4_witness :
    (py_close .Active).result = .ok () ∧
    (py_close .Active).retMode = .Closed :=
  C4_theorem .Active (by decide)

/-- Claim C5: `close()` is idempotent — from any mode, closing twice
reaches the same terminal mode as closing once, neither call errors, and
`close()` while already `Closed` only logs a warning. -/
theorem C5_theorem (mode : ConnectionMode) :
    (py_close mode).result = .ok () ∧
    (py_close ((py_close mode).retMode)).result = .ok () ∧
    (py_close ((py_close mode).retMode)).retMode = (py_close mode).retMode ∧
    (py_close .Closed).actions = [.warn "Socket already closed"] := by
  cases mode <;> exact ⟨rfl, rfl, rfl, rfl⟩

/-- Claim C6: `reconnect()` called while `Active` stores `Reconnecting`
into the shared mode and then waits, returning only once the mode is back
to `Active`. -/
theorem C6_theorem :
    (py_reconnect .Active).actions =
      [.store .Reconnecting, .awaitMode .Active] ∧
    (py_reconnect .Active).retMode = .Active ∧
    (py_reconnect .Active).result = .ok () :=
  ⟨rfl, rfl, rfl⟩

/-- Claim C7: `Closed` is terminal — both `reconnect()` and `close()`
invoked while `Closed` leave the mode `Closed` and perform no store of the
shared mode. -/
theorem C7_theorem :
    (py_reconnect .Closed).retMode = .Closed ∧
    (py_close .Closed).retMode = .Closed ∧
    (py_reconnect .Closed).actions.all (fun a => !a.isStore) = true ∧
    (py_close .Closed).actions.all (fun a => !a.isStore) = true :=
  ⟨rfl, rfl, rfl, rfl⟩

/-- Claim C8: with `0 ≤ initial ≤ max`, `1 ≤ factor`, and a jitter draw in
`[0, jitter_bound]`, every backoff delay satisfies
`initial ≤ next_delay ≤ max + jitter_bound`, and the capped base delay is
non-decreasing in the failure count. -/
theorem C8_theorem (c : BackoffConfig) (n m : ℕ) (jitter : ℚ)
    (h0 : 0 ≤ c.delay_initial) (h1 : c.delay_initial ≤ c.delay_max)
    (hf : 1 ≤ c.factor) (hj0 : 0 ≤ jitter) (hjb : jitter ≤ c.jitter_bound)
    (hnm : n ≤ m) :
    c.delay_initial ≤ next_delay c n jitter ∧
    next_delay c n jitter ≤ c.delay_max + c.jitter_bound ∧
    base_delay c n ≤ base_delay c m := by
  refine ⟨?_, ?_, ?_⟩
  · have hpow : (1 : ℚ) ≤ c.factor ^ n := one_le_pow₀ hf
    have hbl : c.delay_initial ≤ c.delay_initial * c.factor ^ n :=
      le_mul_of_one_le_right h0 hpow
    calc c.delay_initial ≤ base_delay c n := le_min h1 hbl
      _ ≤ base_delay c n + jitter := le_add_of_nonneg_right hj0
      _ = next_delay c n jitter := rfl
  · show base_delay c n + jitter ≤ c.delay_max + c.jitter_bound
    exact add_le_add (min_le_left _ _) hjb
  · exact min_le_min (le_refl _)
      (mul_le_mul_of_nonneg_left (pow_le_pow_right₀ hf hnm) h0)

/-- Claim C8 witness: instantiated at the spec scenario parameters
(initial 2000, max 30000, factor 2, jitter bound 100) with 5 then 6
consecutive failures and a jitter draw of 50. -/
theorem C8_witness :
    (2000 : ℚ) ≤ next_delay ⟨2000, 30000, 2, 100⟩ 5 50 ∧
    next_delay ⟨2000, 30000, 2, 100⟩ 5 50 ≤ 30000 + 100 ∧
    base_delay ⟨2000, 30000, 2, 100⟩ 5 ≤ base_delay ⟨2000, 30000, 2, 100⟩ 6 :=
  C8_theorem ⟨2000, 30000, 2, 100⟩ 5 6 50 (by decide) (by decide) (by decide)
    (by decide) (by decide) (by decide)

/-- Claim C9 counterexample: the one-element list holding a `Betting`
account-state event is non-empty, yet `from_events` reaches the `todo!()`
arm of `AccountAny::from` (a panic) instead of returning an account. -/
theorem C9_counterexample :
    AccountAny.from_events [⟨⟨"SIM-001"⟩, .Betting, 0⟩] =
      .unimplemented "Betting account not implemented" ∧
    ([(⟨⟨"SIM-001"⟩, .Betting, 0⟩ : AccountState)] ≠
      ([] : List AccountState)) :=
  ⟨rfl, by decide⟩

/-- Claim C9 (amended): `from_events` returns the `anyhow` error exactly
when the event list is empty; for a non-empty list whose first event
converts (account type `Cash` or `Margin`), it returns the account built
from the first event with every subsequent event applied in list order; a
non-empty list whose first event is `Betting` hits `todo!()` (panics)
rather than returning. -/
theorem C9_theorem :
    (∀ events : List AccountState,
      (∃ msg, AccountAny.from_events events = .err msg) ↔ events = []) ∧
    (∀ (init : AccountState) (rest : List AccountState) (a : AccountAny),
      AccountAny.fromState init = some a →
      AccountAny.from_events (init :: rest) =
        .ok (rest.foldl AccountAny.applyEvent a)) ∧
    (∀ (init : AccountState) (rest : List AccountState),
      init.account_type = .Betting →
      AccountAny.from_events (init :: rest) =
        .unimplemented "Betting account not implemented") := by
  refine ⟨?_, ?_, ?_⟩
  · intro events
    cases events with
    | nil =>
      exact ⟨fun _ => rfl,
        fun _ => ⟨"No order events provided to create `AccountAny`", rfl⟩⟩
    | cons init rest =>
      constructor
      · rintro ⟨msg, hmsg⟩
        simp only [AccountAny.from_events] at hmsg
        cases hfs : AccountAny.fromState init <;>
          rw [hfs] at hmsg <;> simp at hmsg
      · intro h
        exact absurd h (List.cons_ne_nil _ _)
  · intro init rest a h
    simp only [AccountAny.from_events, h]
  · intro init rest h
    have hfs : AccountAny.fromState init = none := by
      simp only [AccountAny.fromState, h]
    simp only [AccountAny.from_events, hfs]

/-- Claim C9 witness: a two-event `Cash` list yields the account built from
the first event with the second applied. -/
theorem C9_witness :
    AccountAny.from_events
        [⟨⟨"SIM-001"⟩, .Cash, 0⟩, ⟨⟨"SIM-001"⟩, .Cash, 1⟩] =
      .ok ([(⟨⟨"SIM-001"⟩, .Cash, 1⟩ : AccountState)].foldl
        AccountAny.applyEvent
        (AccountAny.Cash (CashAccount.new ⟨⟨"SIM-001"⟩, .Cash, 0⟩ false))) :=
  C9_theorem.2.1 ⟨⟨"SIM-001"⟩, .Cash, 0⟩ [⟨⟨"SIM-001"⟩, .Cash, 1⟩]
    (AccountAny.Cash (CashAccount.new ⟨⟨"SIM-001"⟩, .Cash, 0⟩ false)) rfl

/-- Claim C10: equality on `AccountAny` compares only account ids — for all
accounts `a` and `b`, `a == b` holds iff `a.id() == b.id()`, regardless of
account kind, balances or event history. -/
theorem C10_theorem (a b : AccountAny) :
    AccountAny.beq a b = true ↔ a.id = b.id := by
  simp [AccountAny.beq]
